import Mathlib

/-!
Shallow embedding of `src/data_processing/semantic_filter_elderly.py`:
an LLM-backed, resumable batch classification pipeline with a keyword /
age-pattern prefilter, bounded retry with exponential backoff, an
append-only output file acting as a checkpoint, and a confidence-filtered
derived subset file.

Modelling conventions:
- Texts are Lean `String`s; Python's substring test `k in s` is
  `containsSub` on the char lists.
- Python `str.lower()` is modelled per-character with `Char.toLower`
  (ASCII case folding; every cased character relevant to the hints is
  ASCII, CJK characters are case-invariant).
- The two `re.search` calls are embedded as direct matchers for the exact
  patterns appearing in the source.  The source writes the patterns as
  RAW strings with doubled backslashes (`r"\\b([6-9]\\d)\\s*..."`), so
  the regex engine sees `\\` (a literal backslash) followed by the letter
  `b` / `d` / `s` — not the word-boundary, digit and whitespace classes.
  The matchers below reproduce those literal-backslash semantics.
- Confidence values are `ℚ` (the numeric comparisons in the source are
  exact at the values used: 0.3, 0.0, and the threshold).
- The upstream chat API is an oracle `Nat → Option LLMResult`: attempt
  `a` either raises (`none`: network error, non-2xx, malformed JSON,
  unparsable confidence — anything caught by the `except` clause) or
  yields the parsed `{label, confidence, reason}` triple (`some r`,
  with the `.get` defaults already applied by the client).
-/

namespace ElderlyFilter

/-- English prefilter keywords, `EN_HINTS` in the source (checked against
the lowercased text). -/
def EN_HINTS : List String :=
  ["elderly", "senior", "older adult", "grandma", "grandpa", "aging parent",
   "nursing home", "retirement home", "assisted living", "dementia", "alzheimer",
   "parkinson", "65-year-old", "70-year-old"]

/-- Chinese prefilter keywords, `CN_HINTS` in the source (checked against
the raw text).  Note the final entry: the single character "岁" (year of
age) is itself a keyword. -/
def CN_HINTS : List String :=
  ["老人", "老年", "长者", "独居老人", "空巢老人", "养老院", "老人院", "护理院",
   "赡养", "看护", "照护", "失智", "阿尔茨海默", "帕金森", "高龄", "爷爷", "奶奶",
   "外公", "外婆", "祖父", "祖母", "岁"]

/-- Substring test on char lists: Python's `needle in hay` for strings. -/
def containsSub (needle : List Char) : List Char → Bool
  | [] => needle.isEmpty
  | c :: t => needle.isPrefixOf (c :: t) || containsSub needle t

/-- Consume an exact literal character sequence, returning the rest. -/
def dropLit : List Char → List Char → Option (List Char)
  | [], l => some l
  | _ :: _, [] => none
  | p :: ps, c :: cs => if c = p then dropLit ps cs else none

/-- Matcher for the regex suffix `old\\b`, i.e. the literal characters
`o`, `l`, `d`, `\`, `b` (the doubled backslash in the raw-string pattern
makes `\\b` a literal backslash followed by `b`). -/
def matchOldBB (l : List Char) : Bool :=
  (dropLit ['o', 'l', 'd', '\\', 'b'] l).isSome

/-- Matcher for `[- ]?old\\b`: an optional `-` or space, then `old\\b`. -/
def matchSepOld (l : List Char) : Bool :=
  (match dropLit ['-'] l with
   | some r => matchOldBB r
   | none => false)
  || (match dropLit [' '] l with
      | some r => matchOldBB r
      | none => false)
  || matchOldBB l

/-- Matcher for `(?:year|yrs|yo|y/o)?[- ]?old\\b`: each alternative of the
optional group is tried, as is skipping the group. -/
def matchGrp (l : List Char) : Bool :=
  (match dropLit ['y', 'e', 'a', 'r'] l with
   | some r => matchSepOld r
   | none => false)
  || (match dropLit ['y', 'r', 's'] l with
      | some r => matchSepOld r
      | none => false)
  || (match dropLit ['y', 'o'] l with
      | some r => matchSepOld r
      | none => false)
  || (match dropLit ['y', '/', 'o'] l with
      | some r => matchSepOld r
      | none => false)
  || matchSepOld l

/-- Matcher for `s*` followed by the rest of the English pattern (the
`s*` arises because the raw-string `\\s*` is a literal backslash, then
`s*`).  All quantities of `s` are tried, as regex backtracking would. -/
def matchSStar : List Char → Bool
  | [] => matchGrp []
  | c :: t => matchGrp (c :: t) || (c = 's' && matchSStar t)

/-- Match of the whole English age pattern
`r"\\b([6-9]\\d)\\s*(?:year|yrs|yo|y/o)?[- ]?old\\b"` anchored at the head
of the list.  Because the backslashes are doubled inside a raw string,
the regex consists of the literal characters `\`, `b`, one digit in 6–9,
`\`, `d`, `\`, then `s*`, the optional group, the optional separator,
`old`, `\`, `b`. -/
def enAgeAt (l : List Char) : Bool :=
  match dropLit ['\\', 'b'] l with
  | none => false
  | some r =>
    match r with
    | [] => false
    | c :: t =>
      if '6' ≤ c ∧ c ≤ '9' then
        match dropLit ['\\', 'd', '\\'] t with
        | some r2 => matchSStar r2
        | none => false
      else false

/-- Python `re.search` of the English age pattern: try every start
position. -/
def enAgeSearch : List Char → Bool
  | [] => enAgeAt []
  | c :: t => enAgeAt (c :: t) || enAgeSearch t

/-- Matcher for `s*岁` (tail of the Chinese age pattern). -/
def cnSStar : List Char → Bool
  | [] => false
  | c :: t => (dropLit ['岁'] (c :: t)).isSome || (c = 's' && cnSStar t)

/-- Match of the Chinese age pattern `r"([6-9]\\d)\\s*岁"` anchored at the
head: one digit in 6–9, then the literal characters `\`, `d`, `\`, then
`s*`, then `岁` (again literal-backslash semantics from the doubled
backslashes). -/
def cnAgeAt (l : List Char) : Bool :=
  match l with
  | [] => false
  | c :: t =>
    if '6' ≤ c ∧ c ≤ '9' then
      match dropLit ['\\', 'd', '\\'] t with
      | some r => cnSStar r
      | none => false
    else false

/-- Python `re.search` of the Chinese age pattern. -/
def cnAgeSearch : List Char → Bool
  | [] => cnAgeAt []
  | c :: t => cnAgeAt (c :: t) || cnAgeSearch t

/-- Per-character lowercasing, Python's `text.lower()` restricted to
ASCII case folding. -/
def lowerStr (s : String) : String := ⟨s.data.map Char.toLower⟩

/-- Python's `str.strip()`: remove whitespace from both ends. -/
def pyStrip (s : String) : String :=
  ⟨((s.data.dropWhile Char.isWhitespace).reverse.dropWhile Char.isWhitespace).reverse⟩

/-- The prefilter `maybe_elderly(text)` from the source: English keyword
loop over the lowercased text, Chinese keyword loop over the raw text,
then the two (backslash-literal) age regexes.  Returns `true` when any
hint or pattern hits. -/
def maybe_elderly (text : String) : Bool :=
  let low := lowerStr text
  if EN_HINTS.any (fun k => containsSub k.toList low.toList) then true
  else if CN_HINTS.any (fun k => containsSub k.toList text.toList) then true
  else if enAgeSearch low.toList then true
  else if cnAgeSearch text.toList then true
  else false

example : maybe_elderly "my grandma is ill" = true := by decide
example : maybe_elderly "82-year-old" = false := by decide
example : maybe_elderly "82 岁" = true := by decide
example : maybe_elderly "5岁" = true := by decide
example : maybe_elderly "\\b8\\d\\old\\b" = true := by decide
example : maybe_elderly "car trouble" = false := by decide

/-- One input row of the CSV as `run` consumes it.  `idCol` models a
dataset-assigned explicit id column that may be present in the input
file; the source never reads it (the loop `for i, row in df.iterrows()`
uses the positional `RangeIndex` produced by `pd.read_csv`). -/
structure Record where
  idCol : Option Int
  title : String
  content : String
deriving DecidableEq

/-- The parsed JSON triple delivered by one successful API attempt, with
the source's `.get` defaults (`label` → "uncertain", `confidence` → 0,
`reason` → "") already applied. -/
structure LLMResult where
  label : String
  confidence : ℚ
  reason : String
deriving DecidableEq

/-- One committed row of the output CSV (the `out` dict of the source):
`row_id, label, confidence, reason, title, content`. -/
structure OutRow where
  row_id : Nat
  label : String
  confidence : ℚ
  reason : String
  title : String
  content : String
deriving DecidableEq

/-- Text assembled for one record: `f"{title}\n\n{content}".strip()`. -/
def buildText (title content : String) : String :=
  pyStrip (title ++ "\n\n" ++ content)

/-- Retry loop of the source (`for attempt in range(k)` with the trailing
`else`), parametrised by the attempt oracle.  Returns the first success
(if any), the number of attempts made, and the list of sleeps performed:
on the failure of attempt `a` the source sleeps `2 ** a` seconds (also
after the final failed attempt, before falling through to the `else`
branch). -/
def retryGo (oracle : Nat → Option LLMResult) : Nat → Nat → Option LLMResult × Nat × List Nat
  | _, 0 => (none, 0, [])
  | a, k + 1 =>
    match oracle a with
    | some r => (some r, 1, [])
    | none =>
      let p := retryGo oracle (a + 1) k
      (p.1, p.2.1 + 1, 2 ^ a :: p.2.2)

/-- The retry policy with the source's bound of 5 attempts (`range(5)`);
the spec names this wrapper `with_retry`. -/
def with_retry (oracle : Nat → Option LLMResult) : Option LLMResult × Nat × List Nat :=
  retryGo oracle 0 5

/-- Processing of one non-skipped record: prefilter, then either the
fixed low-confidence `not_elderly` row (source guard `if not
maybe_elderly(text)`), or the retry-wrapped classification ending in the
parsed result or the `uncertain`/0.0 fallback.  Also returns the number
of API calls made for this record. -/
def processRow (i : Nat) (r : Record) (oracle : Nat → Option LLMResult) : OutRow × Nat :=
  let text := buildText r.title r.content
  if maybe_elderly text then
    match with_retry oracle with
    | (some res, n, _) => (⟨i, res.label, res.confidence, res.reason, r.title, r.content⟩, n)
    | (none, n, _) => (⟨i, "uncertain", 0, "API failed", r.title, r.content⟩, n)
  else
    (⟨i, "not_elderly", 3 / 10, "keyword prefilter negative", r.title, r.content⟩, 0)

/-- One row of the existing output file as `csv.DictReader` delivers it
to the checkpoint scan.  A field is `none` when it is absent (e.g. a
half-written last line shorter than the header).  `row_id` is the result
of `int(row["row_id"])`: `none` when the field is missing or does not
parse as an integer (any exception there is swallowed by the bare
`except` and the row is skipped). -/
structure RawRow where
  row_id : Option Int
  label : Option String
  confidence : Option String
  reason : Option String
deriving DecidableEq

/-- Checkpoint scan of the existing output file (the `done_ids` loop):
collect `int(row["row_id"])` for every row where that succeeds, skipping
each failing row individually. -/
def load_done_ids (rows : List RawRow) : List Int :=
  rows.filterMap (fun r => r.row_id)

/-- View of a fully-written output row as the checkpoint scan reads it
back: every field present. -/
def rawOf (o : OutRow) : RawRow :=
  ⟨some (o.row_id : Int), some o.label, some (toString o.confidence), some o.reason⟩

/-- Input table: presence flags for the two required columns plus the
records, in file order. -/
structure InputTable where
  hasTitle : Bool
  hasContent : Bool
  records : List Record

/-- The two conditions on which the source raises `SystemExit` before
processing any row; the spec names them `ConfigurationError` (missing
credential) and `InputSchemaError` (missing required column). -/
inductive FatalError where
  | configurationError
  | inputSchemaError
deriving DecidableEq

/-- Result of a completed run: the full output file content, the
recomputed confident-subset file content, and instrumentation counters
(total API calls made, number of records that reached the prefilter). -/
structure RunOutput where
  output : List OutRow
  confident : List OutRow
  apiCalls : Nat
  prefilterCalls : Nat
deriving DecidableEq

/-- Main row loop of `run` (`for i, row in df.iterrows()`), started at
index `i`: a record whose index is in `done_ids` is skipped outright
(`continue`), every other record is processed and committed. -/
def runLoopFrom (done : List Int) (oracles : Nat → Nat → Option LLMResult) :
    Nat → List Record → List (OutRow × Nat)
  | _, [] => []
  | i, r :: rs =>
    if (i : Int) ∈ done then runLoopFrom done oracles (i + 1) rs
    else processRow i r (oracles i) :: runLoopFrom done oracles (i + 1) rs

/-- Confident-subset computation: `all_df[(all_df["label"] == "elderly") &
(all_df["confidence"] >= min_conf)]` over the full output file. -/
def confidentSubset (minConf : ℚ) (rows : List OutRow) : List OutRow :=
  rows.filter (fun r => r.label == "elderly" && decide (minConf ≤ r.confidence))

/-- The pipeline `run(input_path, output_path, min_conf)`.  Checks the
credential, then the input schema, recovers `done_ids` from the existing
output file (`prior`), appends one committed row per non-skipped record,
and finally recomputes the confident subset from the complete output
file.  `oracles i` is the attempt oracle for row `i`. -/
def run (apiKey : String) (input : InputTable) (prior : List OutRow)
    (oracles : Nat → Nat → Option LLMResult) (minConf : ℚ) : Except FatalError RunOutput :=
  if apiKey = "" then .error .configurationError
  else if input.hasTitle = false ∨ input.hasContent = false then .error .inputSchemaError
  else
    let done := load_done_ids (prior.map rawOf)
    let results := runLoopFrom done oracles 0 input.records
    let output := prior ++ results.map (fun p => p.1)
    .ok ⟨output, confidentSubset minConf output, (results.map (fun p => p.2)).sum, results.length⟩

/-! Helper lemmas shared by the claim theorems. -/

/-- Whatever path a record takes, the committed row carries the loop
index as its `row_id`. -/
lemma processRow_fst_row_id (i : Nat) (r : Record) (oracle : Nat → Option LLMResult) :
    (processRow i r oracle).1.row_id = i := by
  unfold processRow
  by_cases h : maybe_elderly (buildText r.title r.content)
  · simp only [h, if_true]
    rcases hw : with_retry oracle with ⟨res, n, s⟩
    cases res <;> simp [hw]
  · simp [h]

/-- The checkpoint ids recovered from a fully-written output file are
exactly its `row_id`s. -/
lemma load_done_ids_map_rawOf (prior : List OutRow) :
    load_done_ids (prior.map rawOf) = prior.map (fun o => (o.row_id : Int)) := by
  induction prior with
  | nil => rfl
  | cons o t ih =>
    simp only [load_done_ids, List.map_cons, List.filterMap_cons, rawOf] at ih ⊢
    simp [ih]

/-- The `row_id`s committed by the row loop started at `i` are exactly
the indices `i, i+1, ...` of the remaining records that are not in
`done_ids`, in order. -/
lemma runLoopFrom_ids (done : List Int) (oracles : Nat → Nat → Option LLMResult) :
    ∀ (rs : List Record) (i : Nat),
      (runLoopFrom done oracles i rs).map (fun p => p.1.row_id)
        = (List.range' i rs.length).filter (fun (j : Nat) => decide ((j : Int) ∉ done))
  | [], i => by simp [runLoopFrom]
  | r :: rs, i => by
    rw [show (r :: rs).length = rs.length + 1 from rfl, List.range'_succ]
    by_cases h : (i : Int) ∈ done
    · simp [runLoopFrom, h, List.filter_cons, runLoopFrom_ids done oracles rs (i + 1)]
    · simp [runLoopFrom, h, List.filter_cons, processRow_fst_row_id,
        runLoopFrom_ids done oracles rs (i + 1)]

/-- When every remaining index is already in `done_ids`, the row loop
commits nothing. -/
lemma runLoopFrom_eq_nil (done : List Int) (oracles : Nat → Nat → Option LLMResult) :
    ∀ (rs : List Record) (i : Nat),
      (∀ k, k < rs.length → ((i + k : Nat) : Int) ∈ done) →
      runLoopFrom done oracles i rs = []
  | [], _, _ => rfl
  | r :: rs, i, h => by
    have h0 : (i : Int) ∈ done := by simpa using h 0 (Nat.succ_pos _)
    have hrec : runLoopFrom done oracles (i + 1) rs = [] := by
      refine runLoopFrom_eq_nil done oracles rs (i + 1) (fun k hk => ?_)
      have := h (k + 1) (by simpa using Nat.succ_lt_succ hk)
      simpa [Nat.add_assoc, Nat.add_comm 1 k] using this
    simp [runLoopFrom, h0, hrec]

/-- Normal form of `run` when the credential is present and the schema
check passes. -/
lemma run_ok (apiKey : String) (input : InputTable) (prior : List OutRow)
    (oracles : Nat → Nat → Option LLMResult) (minConf : ℚ)
    (hk : apiKey ≠ "") (ht : input.hasTitle = true) (hc : input.hasContent = true) :
    run apiKey input prior oracles minConf =
      .ok ⟨prior ++ (runLoopFrom (load_done_ids (prior.map rawOf)) oracles 0 input.records).map
              (fun p => p.1),
           confidentSubset minConf
             (prior ++ (runLoopFrom (load_done_ids (prior.map rawOf)) oracles 0 input.records).map
               (fun p => p.1)),
           ((runLoopFrom (load_done_ids (prior.map rawOf)) oracles 0 input.records).map
             (fun p => p.2)).sum,
           (runLoopFrom (load_done_ids (prior.map rawOf)) oracles 0 input.records).length⟩ := by
  simp [run, hk, ht, hc]

/-- Unfolding of one failing attempt. -/
lemma retryGo_succ_none (oracle : Nat → Option LLMResult) (a k : Nat) (h : oracle a = none) :
    retryGo oracle a (k + 1)
      = ((retryGo oracle (a + 1) k).1, (retryGo oracle (a + 1) k).2.1 + 1,
         2 ^ a :: (retryGo oracle (a + 1) k).2.2) := by
  simp [retryGo, h]

/-- Unfolding of one successful attempt. -/
lemma retryGo_succ_some (oracle : Nat → Option LLMResult) (a k : Nat) (r : LLMResult)
    (h : oracle a = some r) :
    retryGo oracle a (k + 1) = (some r, 1, []) := by
  simp [retryGo, h]

/-- The retry loop never makes more attempts than its bound. -/
lemma retryGo_attempts_le (oracle : Nat → Option LLMResult) :
    ∀ (k a : Nat), (retryGo oracle a k).2.1 ≤ k
  | 0, _ => by simp [retryGo]
  | k + 1, a => by
    rcases h : oracle a with _ | r
    · rw [retryGo_succ_none oracle a k h]
      exact Nat.succ_le_succ (retryGo_attempts_le oracle k (a + 1))
    · rw [retryGo_succ_some oracle a k r h]
      exact Nat.succ_le_succ (Nat.zero_le _)

/-! Claim theorems. -/

/-- C10: for every text containing the character "岁" anywhere —
regardless of whether any number accompanies it, and for any age value —
`maybe_elderly` returns `true`, because "岁" itself is a standalone entry
of `CN_HINTS`; the CJK branch of the prefilter is therefore not
restricted to ages 60–99. -/
theorem C10_sui_standalone_keyword (text : String)
    (h : containsSub ['岁'] text.toList = true) : maybe_elderly text = true := by
  unfold maybe_elderly
  simp
  exact Or.inr (Or.inl ⟨"岁", by decide, h⟩)

/-- Witness for C10 at the concrete text "我5岁" (age 5, far below 60). -/
theorem C10_witness :
    containsSub ['岁'] "我5岁".toList = true ∧ maybe_elderly "我5岁" = true :=
  ⟨by decide, C10_sui_standalone_keyword "我5岁" (by decide)⟩

/-- C4 (code bug evaluation): the prefilter rejects "82-year-old" even
though both the spec and the source's own comments (`年龄正则`, "age
regex") intend ages 60–99 to match — the raw-string patterns double
their backslashes, so the regex only matches text containing literal
backslash characters, as the third conjunct shows; "82 岁" is accepted,
but only because "岁" is a `CN_HINTS` keyword. -/
theorem C4_age_pattern_eval :
    maybe_elderly "82-year-old" = false ∧ maybe_elderly "82 岁" = true ∧
      maybe_elderly "\\b8\\d\\old\\b" = true :=
  ⟨by decide, by decide, by decide⟩

/-- C3 (counterexample): the committed reason for a prefilter-negative
record is the literal "keyword prefilter negative", not the spec's
"heuristic negative", at the spec's own example row 8. -/
theorem C3_counterexample :
    maybe_elderly (buildText "car trouble" "my car broke down") = false ∧
    (processRow 8 ⟨none, "car trouble", "my car broke down"⟩ (fun _ => none)).1.reason
      = "keyword prefilter negative" ∧
    (processRow 8 ⟨none, "car trouble", "my car broke down"⟩ (fun _ => none)).1.reason
      ≠ "heuristic negative" :=
  ⟨by decide, by decide, by decide⟩

/-- C3 (amended): for every record whose text the prefilter rejects, the
committed Classification is exactly `label = not_elderly`,
`confidence = 0.3`, `reason = "keyword prefilter negative"`, and no
upstream API call is made for that record. -/
theorem C3_amended_prefilter_negative (i : Nat) (r : Record)
    (oracle : Nat → Option LLMResult)
    (h : maybe_elderly (buildText r.title r.content) = false) :
    processRow i r oracle
      = (⟨i, "not_elderly", 3 / 10, "keyword prefilter negative", r.title, r.content⟩, 0) := by
  unfold processRow
  simp [h]

/-- Witness for the amended C3 at the spec's example row 8. -/
theorem C3_witness :
    maybe_elderly (buildText "car trouble" "my car broke down") = false ∧
    processRow 8 ⟨none, "car trouble", "my car broke down"⟩ (fun _ => none)
      = (⟨8, "not_elderly", 3 / 10, "keyword prefilter negative",
          "car trouble", "my car broke down"⟩, 0) :=
  ⟨by decide,
   C3_amended_prefilter_negative 8 ⟨none, "car trouble", "my car broke down"⟩
     (fun _ => none) (by decide)⟩

/-- C7 (counterexample): a scanned row whose `row_id` field parses still
enters `done_ids` when every required field (`label`, `confidence`,
`reason`) is absent — a half-written line with only a row id counts as
done, contrary to the claim. -/
theorem C7_counterexample :
    (3 : Int) ∈ load_done_ids [⟨some 3, none, none, none⟩] ∧
    (⟨some 3, none, none, none⟩ : RawRow).label = none ∧
    (⟨some 3, none, none, none⟩ : RawRow).confidence = none ∧
    (⟨some 3, none, none, none⟩ : RawRow).reason = none :=
  ⟨by decide, rfl, rfl, rfl⟩

/-- C7 (amended): `load_done_ids` recovers exactly the `row_id`s of the
scanned rows whose `row_id` field is present and parses as an integer —
a malformed row (unparsable or missing `row_id`) is skipped individually
without aborting the load, but presence of the remaining fields is not
checked. -/
theorem C7_amended_done_ids (rows : List RawRow) (k : Int) (l c rr : Option String) :
    (k ∈ load_done_ids rows ↔ ∃ r ∈ rows, r.row_id = some k) ∧
    load_done_ids (⟨none, l, c, rr⟩ :: rows) = load_done_ids rows := by
  constructor
  · simp [load_done_ids]
  · simp [load_done_ids, List.filterMap_cons]

/-- C5: the retry wrapper makes at most 5 attempts with sleeps of
`2 ^ attempt` after each failure; an operation failing 4 times then
succeeding yields the success with exactly 5 attempts (and that result
is committed for a prefilter-positive record); an always-failing
operation ends after exactly 5 attempts with the row committed as
`uncertain`, confidence 0.0, fixed reason "API failed"; and a run whose
every API attempt fails still completes without a fatal error. -/
theorem C5_retry_policy (oracle : Nat → Option LLMResult) (i : Nat) (r : Record) :
    (with_retry oracle).2.1 ≤ 5 ∧
    (∀ res : LLMResult, (∀ a, a < 4 → oracle a = none) → oracle 4 = some res →
      with_retry oracle = (some res, 5, [1, 2, 4, 8]) ∧
      (maybe_elderly (buildText r.title r.content) = true →
        processRow i r oracle
          = (⟨i, res.label, res.confidence, res.reason, r.title, r.content⟩, 5))) ∧
    ((∀ a, oracle a = none) →
      with_retry oracle = (none, 5, [1, 2, 4, 8, 16]) ∧
      (maybe_elderly (buildText r.title r.content) = true →
        processRow i r oracle = (⟨i, "uncertain", 0, "API failed", r.title, r.content⟩, 5))) ∧
    (∀ (key : String) (inp : InputTable) (pr : List OutRow) (m : ℚ),
      key ≠ "" → inp.hasTitle = true → inp.hasContent = true →
      ∃ out, run key inp pr (fun _ _ => none) m = Except.ok out) := by
  refine ⟨retryGo_attempts_le oracle 5 0, ?_, ?_, ?_⟩
  · intro res hf h4
    have hw : with_retry oracle = (some res, 5, [1, 2, 4, 8]) := by
      have e0 := hf 0 (by norm_num)
      have e1 := hf 1 (by norm_num)
      have e2 := hf 2 (by norm_num)
      have e3 := hf 3 (by norm_num)
      simp [with_retry, retryGo, e0, e1, e2, e3, h4]
    refine ⟨hw, fun hm => ?_⟩
    unfold processRow
    simp [hm, hw]
  · intro hf
    have hw : with_retry oracle = (none, 5, [1, 2, 4, 8, 16]) := by
      simp [with_retry, retryGo, hf]
    refine ⟨hw, fun hm => ?_⟩
    unfold processRow
    simp [hm, hw]
  · intro key inp pr m hk ht hc
    exact ⟨_, run_ok key inp pr (fun _ _ => none) m hk ht hc⟩

/-- Witness for C5: a concrete oracle failing on attempts 0–3 and
succeeding on attempt 4, and the all-failing oracle, evaluated through
the theorem. -/
theorem C5_witness :
    (∀ a, a < 4 →
      (fun a => if a = 4 then some (⟨"elderly", 9 / 10, "ok"⟩ : LLMResult) else none) a
        = none) ∧
    (fun a => if a = 4 then some (⟨"elderly", 9 / 10, "ok"⟩ : LLMResult) else none) 4
      = some ⟨"elderly", 9 / 10, "ok"⟩ ∧
    maybe_elderly (buildText "elderly neighbor" "") = true ∧
    with_retry (fun a => if a = 4 then some (⟨"elderly", 9 / 10, "ok"⟩ : LLMResult) else none)
      = (some ⟨"elderly", 9 / 10, "ok"⟩, 5, [1, 2, 4, 8]) ∧
    with_retry (fun _ => none) = (none, 5, [1, 2, 4, 8, 16]) ∧
    processRow 7 ⟨none, "elderly neighbor", ""⟩ (fun _ => none)
      = (⟨7, "uncertain", 0, "API failed", "elderly neighbor", ""⟩, 5) := by
  refine ⟨by decide, rfl, by decide, ?_, ?_, ?_⟩
  · exact ((C5_retry_policy
      (fun a => if a = 4 then some (⟨"elderly", 9 / 10, "ok"⟩ : LLMResult) else none) 7
      ⟨none, "elderly neighbor", ""⟩).2.1 ⟨"elderly", 9 / 10, "ok"⟩
      (by decide) rfl).1
  · exact ((C5_retry_policy (fun _ => none) 7
      ⟨none, "elderly neighbor", ""⟩).2.2.1 (fun _ => rfl)).1
  · exact ((C5_retry_policy (fun _ => none) 7
      ⟨none, "elderly neighbor", ""⟩).2.2.1 (fun _ => rfl)).2 (by decide)

/-- Bridge between the recovered checkpoint ids (as integers) and the
`row_id`s of the fully-written prior output. -/
lemma mem_done_iff (prior : List OutRow) (j : Nat) :
    ((j : Int) ∈ load_done_ids (prior.map rawOf)) ↔ j ∈ prior.map OutRow.row_id := by
  rw [load_done_ids_map_rawOf]
  simp [List.mem_map]

/-- Ids of the rows the loop appends, phrased over the prior output. -/
lemma new_ids_eq (prior : List OutRow) (oracles : Nat → Nat → Option LLMResult)
    (records : List Record) :
    ((runLoopFrom (load_done_ids (prior.map rawOf)) oracles 0 records).map
        (fun p => p.1)).map OutRow.row_id
      = (List.range' 0 records.length).filter
          (fun (j : Nat) => decide (j ∉ prior.map OutRow.row_id)) := by
  rw [List.map_map]
  rw [show (OutRow.row_id ∘ fun p : OutRow × Nat => p.1)
        = (fun p : OutRow × Nat => p.1.row_id) from rfl]
  rw [runLoopFrom_ids]
  apply List.filter_congr
  intro j _
  simp [mem_done_iff]

/-- C1: for a completed run, the set of `row_id`s in the full output
file is exactly the set of positional indices of the input records, each
appearing exactly once — every input row not already in `done_ids` is
committed exactly once, on the prefilter-negative, classified, or
retry-exhausted path. -/
theorem C1_output_ids_exact (apiKey : String) (input : InputTable) (prior : List OutRow)
    (oracles : Nat → Nat → Option LLMResult) (minConf : ℚ)
    (hk : apiKey ≠ "") (ht : input.hasTitle = true) (hc : input.hasContent = true)
    (hnd : (prior.map OutRow.row_id).Nodup)
    (hsub : ∀ o ∈ prior, o.row_id < input.records.length) :
    ∃ out, run apiKey input prior oracles minConf = Except.ok out ∧
      (out.output.map OutRow.row_id).Nodup ∧
      ∀ j, j ∈ out.output.map OutRow.row_id ↔ j < input.records.length := by
  refine ⟨_, run_ok apiKey input prior oracles minConf hk ht hc, ?_, ?_⟩
  · rw [List.map_append, new_ids_eq]
    refine hnd.append (((List.nodup_range' ..).filter _)) ?_
    intro x hx hy
    rw [List.mem_filter] at hy
    exact absurd hx (by simpa using hy.2)
  · intro j
    rw [List.map_append, new_ids_eq, List.mem_append, List.mem_filter]
    constructor
    · rintro (hj | ⟨hj, -⟩)
      · rcases List.mem_map.mp hj with ⟨o, ho, rfl⟩
        exact hsub o ho
      · simpa [List.range_eq_range'] using hj
    · intro hj
      by_cases hmem : j ∈ prior.map OutRow.row_id
      · exact Or.inl hmem
      · exact Or.inr ⟨by simpa [List.range_eq_range'] using hj, by simpa using hmem⟩

/-- Witness for C1: a fresh two-row run with all API attempts failing. -/
theorem C1_witness :
    ("k" : String) ≠ "" ∧
    (([] : List OutRow).map OutRow.row_id).Nodup ∧
    (∀ o ∈ ([] : List OutRow),
      o.row_id < (InputTable.mk true true
        [⟨none, "car trouble", "my car broke down"⟩, ⟨none, "elderly neighbor", "x"⟩]).records.length) ∧
    (∃ out, run "k" ⟨true, true,
        [⟨none, "car trouble", "my car broke down"⟩, ⟨none, "elderly neighbor", "x"⟩]⟩
        [] (fun _ _ => none) (6 / 10) = Except.ok out ∧
      (out.output.map OutRow.row_id).Nodup ∧
      ∀ j, j ∈ out.output.map OutRow.row_id ↔
        j < (InputTable.mk true true
          [⟨none, "car trouble", "my car broke down"⟩, ⟨none, "elderly neighbor", "x"⟩]).records.length) :=
  ⟨by decide, by simp, by simp,
   C1_output_ids_exact "k" ⟨true, true,
       [⟨none, "car trouble", "my car broke down"⟩, ⟨none, "elderly neighbor", "x"⟩]⟩
     [] (fun _ _ => none) (6 / 10) (by decide) rfl rfl (by simp) (by simp)⟩

/-- C2: a second run against the same input/output pair is a no-op on
the output file — every index already in `done_ids` is skipped entirely,
so no API call is made, no record reaches the prefilter, no row is
appended and none is altered (the confident subset is merely recomputed
from the unchanged output). -/
theorem C2_second_run_noop (apiKey : String) (input : InputTable) (prior : List OutRow)
    (oracles : Nat → Nat → Option LLMResult) (minConf : ℚ)
    (hk : apiKey ≠ "") (ht : input.hasTitle = true) (hc : input.hasContent = true)
    (hall : ∀ i, i < input.records.length → ((i : Nat) : Int) ∈ load_done_ids (prior.map rawOf)) :
    run apiKey input prior oracles minConf
      = Except.ok ⟨prior, confidentSubset minConf prior, 0, 0⟩ := by
  have hnil : runLoopFrom (load_done_ids (prior.map rawOf)) oracles 0 input.records = [] :=
    runLoopFrom_eq_nil _ oracles input.records 0 (fun k hk' => by simpa using hall k hk')
  rw [run_ok apiKey input prior oracles minConf hk ht hc]
  simp [hnil]

/-- Witness for C2: a one-row input whose single index is already
checkpointed. -/
theorem C2_witness :
    ("k" : String) ≠ "" ∧
    (∀ i, i < (InputTable.mk true true [⟨none, "a", "b"⟩]).records.length →
      ((i : Nat) : Int) ∈ load_done_ids
        (([⟨0, "not_elderly", 3 / 10, "keyword prefilter negative", "a", "b"⟩] : List OutRow).map rawOf)) ∧
    run "k" ⟨true, true, [⟨none, "a", "b"⟩]⟩
        [⟨0, "not_elderly", 3 / 10, "keyword prefilter negative", "a", "b"⟩]
        (fun _ _ => none) (6 / 10)
      = Except.ok ⟨[⟨0, "not_elderly", 3 / 10, "keyword prefilter negative", "a", "b"⟩],
          confidentSubset (6 / 10)
            [⟨0, "not_elderly", 3 / 10, "keyword prefilter negative", "a", "b"⟩], 0, 0⟩ :=
  ⟨by decide, by simp [load_done_ids, rawOf],
   C2_second_run_noop "k" ⟨true, true, [⟨none, "a", "b"⟩]⟩
     [⟨0, "not_elderly", 3 / 10, "keyword prefilter negative", "a", "b"⟩]
     (fun _ _ => none) (6 / 10) (by decide) rfl rfl
     (by simp [load_done_ids, rawOf])⟩

/-- C6: the run halts with a fatal error before committing any output in
exactly two cases — missing credential (checked first, before any row)
and missing required input column; in every other situation the run
completes, with each not-yet-done input row ending in exactly one newly
committed Classification whatever its API attempts did. -/
theorem C6_fatal_cases (apiKey : String) (input : InputTable) (prior : List OutRow)
    (oracles : Nat → Nat → Option LLMResult) (minConf : ℚ) :
    (apiKey = "" →
      run apiKey input prior oracles minConf = Except.error FatalError.configurationError) ∧
    (apiKey ≠ "" → (input.hasTitle = false ∨ input.hasContent = false) →
      run apiKey input prior oracles minConf = Except.error FatalError.inputSchemaError) ∧
    (apiKey ≠ "" → input.hasTitle = true → input.hasContent = true →
      ∃ out, run apiKey input prior oracles minConf = Except.ok out ∧
        out.output = prior ++ (runLoopFrom (load_done_ids (prior.map rawOf)) oracles 0
          input.records).map (fun p => p.1) ∧
        ∀ i, i < input.records.length →
          (i : Int) ∉ load_done_ids (prior.map rawOf) →
          (((runLoopFrom (load_done_ids (prior.map rawOf)) oracles 0 input.records).map
              (fun p => p.1)).map OutRow.row_id).count i = 1) := by
  refine ⟨fun hk => by simp [run, hk], fun hk hcol => ?_, fun hk ht hc => ?_⟩
  · rcases hcol with h | h <;> simp [run, hk, h]
  · refine ⟨_, run_ok apiKey input prior oracles minConf hk ht hc, rfl, ?_⟩
    intro i hi hdone
    rw [List.map_map]
    rw [show (OutRow.row_id ∘ fun p : OutRow × Nat => p.1)
          = (fun p : OutRow × Nat => p.1.row_id) from rfl]
    rw [runLoopFrom_ids]
    refine List.count_eq_one_of_mem ((List.nodup_range' ..).filter _) ?_
    rw [List.mem_filter]
    exact ⟨by simpa [List.range_eq_range'] using hi, by simpa using hdone⟩

/-- Witness for C6: the three cases at concrete inputs — empty
credential, missing `content` column, and a successful one-row run with
an always-failing oracle. -/
theorem C6_witness :
    run "" ⟨true, true, [⟨none, "a", "b"⟩]⟩ [] (fun _ _ => none) (6 / 10)
      = Except.error FatalError.configurationError ∧
    run "k" ⟨true, false, [⟨none, "a", "b"⟩]⟩ [] (fun _ _ => none) (6 / 10)
      = Except.error FatalError.inputSchemaError ∧
    (∃ out, run "k" ⟨true, true, [⟨none, "a", "b"⟩]⟩ [] (fun _ _ => none) (6 / 10)
        = Except.ok out ∧
      out.output = ([] : List OutRow) ++ (runLoopFrom
        (load_done_ids (([] : List OutRow).map rawOf)) (fun _ _ => none) 0
        [⟨none, "a", "b"⟩]).map (fun p => p.1) ∧
      ∀ i, i < (InputTable.mk true true [⟨none, "a", "b"⟩]).records.length →
        (i : Int) ∉ load_done_ids (([] : List OutRow).map rawOf) →
        (((runLoopFrom (load_done_ids (([] : List OutRow).map rawOf)) (fun _ _ => none) 0
            (InputTable.mk true true [⟨none, "a", "b"⟩]).records).map
            (fun p => p.1)).map OutRow.row_id).count i = 1) :=
  ⟨(C6_fatal_cases "" ⟨true, true, [⟨none, "a", "b"⟩]⟩ [] (fun _ _ => none) (6 / 10)).1 rfl,
   (C6_fatal_cases "k" ⟨true, false, [⟨none, "a", "b"⟩]⟩ [] (fun _ _ => none) (6 / 10)).2.1
     (by decide) (Or.inr rfl),
   (C6_fatal_cases "k" ⟨true, true, [⟨none, "a", "b"⟩]⟩ [] (fun _ _ => none) (6 / 10)).2.2
     (by decide) rfl rfl⟩

/-- C8: after every successful run the confident-subset file holds
exactly the rows of the complete output file (prior runs' rows included)
whose label is "elderly" and whose confidence meets the threshold; it is
recomputed in full from the output file, not appended to. -/
theorem C8_confident_subset (apiKey : String) (input : InputTable) (prior : List OutRow)
    (oracles : Nat → Nat → Option LLMResult) (minConf : ℚ)
    (hk : apiKey ≠ "") (ht : input.hasTitle = true) (hc : input.hasContent = true) :
    ∃ out, run apiKey input prior oracles minConf = Except.ok out ∧
      out.confident = confidentSubset minConf out.output ∧
      ∀ r : OutRow, r ∈ out.confident ↔
        (r ∈ out.output ∧ r.label = "elderly" ∧ minConf ≤ r.confidence) := by
  refine ⟨_, run_ok apiKey input prior oracles minConf hk ht hc, rfl, ?_⟩
  intro r
  simp [confidentSubset, List.mem_filter, and_assoc]
  tauto

/-- Witness for C8: a run over prior output containing an "elderly" row
above the threshold, one below it, and a non-elderly row. -/
theorem C8_witness :
    ("k" : String) ≠ "" ∧
    (∃ out, run "k" ⟨true, true, []⟩
        [⟨0, "elderly", 9 / 10, "r0", "t0", "c0"⟩,
         ⟨1, "elderly", 1 / 10, "r1", "t1", "c1"⟩,
         ⟨2, "not_elderly", 9 / 10, "r2", "t2", "c2"⟩]
        (fun _ _ => none) (6 / 10) = Except.ok out ∧
      out.confident = confidentSubset (6 / 10) out.output ∧
      ∀ r : OutRow, r ∈ out.confident ↔
        (r ∈ out.output ∧ r.label = "elderly" ∧ (6 / 10 : ℚ) ≤ r.confidence)) :=
  ⟨by decide,
   C8_confident_subset "k" ⟨true, true, []⟩
     [⟨0, "elderly", 9 / 10, "r0", "t0", "c0"⟩,
      ⟨1, "elderly", 1 / 10, "r1", "t1", "c1"⟩,
      ⟨2, "not_elderly", 9 / 10, "r2", "t2", "c2"⟩]
     (fun _ _ => none) (6 / 10) (by decide) rfl rfl⟩

/-- Committed rows do not depend on the dataset-assigned id column. -/
lemma processRow_idCol (i : Nat) (r : Record) (v : Option Int)
    (oracle : Nat → Option LLMResult) :
    processRow i { r with idCol := v } oracle = processRow i r oracle := rfl

/-- The whole row loop ignores the dataset-assigned id column. -/
lemma runLoopFrom_idCol_irrel (done : List Int) (oracles : Nat → Nat → Option LLMResult) :
    ∀ (rs : List Record) (i : Nat),
      runLoopFrom done oracles i (rs.map (fun rec => { rec with idCol := none }))
        = runLoopFrom done oracles i rs
  | [], _ => rfl
  | r :: rs, i => by
    by_cases h : (i : Int) ∈ done <;>
      simp [runLoopFrom, h, processRow_idCol,
        runLoopFrom_idCol_irrel done oracles rs (i + 1)]

/-- C9: the `row_id` committed for each record is its zero-based
positional index in the input table — each committed row carries the
loop index, the committed index set is exactly the non-done positional
range, and erasing an explicit id column from every input record leaves
the run's output unchanged, so resumption identity is positional. -/
theorem C9_row_id_positional (i : Nat) (r : Record) (v : Option Int)
    (oracle : Nat → Option LLMResult) (done : List Int)
    (oracles : Nat → Nat → Option LLMResult) (rs : List Record) :
    (processRow i r oracle).1.row_id = i ∧
    processRow i { r with idCol := v } oracle = processRow i r oracle ∧
    (runLoopFrom done oracles i rs).map (fun p => p.1.row_id)
      = (List.range' i rs.length).filter (fun (j : Nat) => decide ((j : Int) ∉ done)) ∧
    runLoopFrom done oracles i (rs.map (fun rec => { rec with idCol := none }))
      = runLoopFrom done oracles i rs :=
  ⟨processRow_fst_row_id i r oracle, processRow_idCol i r v oracle,
   runLoopFrom_ids done oracles rs i, runLoopFrom_idCol_irrel done oracles rs i⟩

end ElderlyFilter
